import Mathlib

/-
Shallow embedding of the baseline-comparison harness of
vtkFreehandCalibrationTest.cxx (PlusLib).

The harness loads two XML result documents and compares a calibration
transform and several error metrics between them, accumulating an integer
failure count.  Numeric values are modelled as exact rationals (ℚ); the
integer threshold parameters of CompareCalibrationResultsWithBaseline are
modelled as ℤ.  The two geometric error functions
PlusMath::GetPositionDifference and PlusMath::GetOrientationDifference are
defined in PlusMath, which is not part of the sources here; they enter the
embedding as explicit function parameters (pd, od below).
-/

/-- Attribute values of a document node: scalar double, numeric vector, or
text (spec §3, ResultDocument). -/
inductive AttrValue where
  | scalar (v : ℚ)
  | vector (vs : List ℚ)
  | text (s : String)

/-- A vtkXMLDataElement: a named node with attributes and an ordered list of
named child nodes. -/
inductive XmlElement where
  | mk (name : String) (attributes : List (String × AttrValue)) (children : List XmlElement)

/-- Name of a node. -/
def XmlElement.name : XmlElement → String
  | .mk n _ _ => n

/-- Attribute list of a node. -/
def XmlElement.attributes : XmlElement → List (String × AttrValue)
  | .mk _ a _ => a

/-- Children of a node. -/
def XmlElement.children : XmlElement → List XmlElement
  | .mk _ _ c => c

/-- vtkXMLDataElement::FindNestedElementWithName: single-level lookup of the
first child with the given name (spec §4.1, FindChild). -/
def FindNestedElementWithName (e : XmlElement) (n : String) : Option XmlElement :=
  e.children.find? (fun c => c.name == n)

/-- Raw attribute lookup by name, first match wins. -/
def getAttribute (e : XmlElement) (n : String) : Option AttrValue :=
  (e.attributes.find? (fun p => p.1 == n)).map (fun p => p.2)

/-- vtkXMLDataElement::GetVectorAttribute: succeeds only when the attribute is
present as a numeric vector of exactly the requested length (spec §4.1). -/
def GetVectorAttribute (e : XmlElement) (n : String) (len : ℕ) : Option (List ℚ) :=
  match getAttribute e n with
  | some (.vector vs) => if vs.length = len then some vs else none
  | _ => none

/-- vtkXMLDataElement::GetScalarAttribute: succeeds only when the attribute is
present as a scalar (spec §4.1). -/
def GetScalarAttribute (e : XmlElement) (n : String) : Option ℚ :=
  match getAttribute e n with
  | some (.scalar v) => some v
  | _ => none

/-- ERROR_THRESHOLD = 0.05: the fixed 5% relative-ratio threshold
(vtkFreehandCalibrationTest.cxx line 37). -/
def ERROR_THRESHOLD : ℚ := 5 / 100

/-- One application of the relative-ratio rule: `ratio = b / c;
if (ratio > 1 + ERROR_THRESHOLD || ratio < 1 - ERROR_THRESHOLD)` (lines
321-331 and the three analogous blocks).  The C++ division is unguarded
IEEE-double arithmetic, so the `c = 0` case is made explicit here: with a
nonzero numerator `b / 0` is ±infinity, which violates one of the two bounds
(a failure); `0 / 0` is NaN, which satisfies neither strict comparison (no
failure).  For `c ≠ 0` the exact rational comparison is used. -/
def ratioFails (b c : ℚ) : Bool :=
  if c = 0 then
    decide (b ≠ 0)
  else
    decide (b / c > 1 + ERROR_THRESHOLD) || decide (b / c < 1 - ERROR_THRESHOLD)

/-- The per-component loop over a vector metric pair (`for i < n` over two
length-n vectors): each failing component adds one failure, no
short-circuit. -/
def countRatioFailures : List ℚ → List ℚ → ℕ
  | b :: bs, c :: cs => (if ratioFails b c then 1 else 0) + countRatioFailures bs cs
  | _, _ => 0

/-- A 4x4 matrix of (exact) reals as used by the comparison, entries indexed
row, column. -/
def Mat4 : Type := Fin 4 → Fin 4 → ℚ

/-- The double[16] → vtkMatrix4x4 fill `SetElement(i, j, v[4*i + j])`
(lines 240-249): row-major. -/
def matrixOfList (l : List ℚ) : Mat4 :=
  fun i j => l.getD (4 * i.val + j.val) 0

/-- The TransformImageToProbe block (lines 222-264): read the 16-element
attribute from both documents (a missing side is one failure and skips the
comparison), build the two matrices, then apply the absolute-threshold rule
`error > threshold` to the translation and the rotation error.  `pd` and `od`
stand for PlusMath::GetPositionDifference / GetOrientationDifference, whose
sources are not part of this repository. -/
def transformImageToProbeCheck (pd od : Mat4 → Mat4 → ℚ)
    (calibrationTransformBaseline calibrationTransform : XmlElement)
    (translationErrorThreshold rotationErrorThreshold : ℤ) : ℕ :=
  match GetVectorAttribute calibrationTransformBaseline "TransformImageToProbe" 16 with
  | none => 1
  | some blTransformImageToProbe =>
    match GetVectorAttribute calibrationTransform "TransformImageToProbe" 16 with
    | none => 1
    | some cTransformImageToProbe =>
      let baseTransMatrix := matrixOfList blTransformImageToProbe
      let currentTransMatrix := matrixOfList cTransformImageToProbe
      (if pd baseTransMatrix currentTransMatrix > (translationErrorThreshold : ℚ) then 1 else 0)
      + (if od baseTransMatrix currentTransMatrix > (rotationErrorThreshold : ℚ) then 1 else 0)

/-- The PRE attribute pair check (lines 306-331): baseline missing is one
failure (current side never read); else current missing is one failure; else
the ratio rule runs over all nine components. -/
def preCheck (preAnalysisBaseline preAnalysis : XmlElement) : ℕ :=
  match GetVectorAttribute preAnalysisBaseline "PRE" 9 with
  | none => 1
  | some blPRE =>
    match GetVectorAttribute preAnalysis "PRE" 9 with
    | none => 1
    | some cPRE => countRatioFailures blPRE cPRE

/-- The PRE ValidationDataConfidenceLevel pair check (lines 333-353). -/
def preConfidenceCheck (preAnalysisBaseline preAnalysis : XmlElement) : ℕ :=
  match GetScalarAttribute preAnalysisBaseline "ValidationDataConfidenceLevel" with
  | none => 1
  | some bl =>
    match GetScalarAttribute preAnalysis "ValidationDataConfidenceLevel" with
    | none => 1
    | some c => if ratioFails bl c then 1 else 0

/-- The PLDE attribute pair check (lines 375-400), three components. -/
def pldeCheck (pldeAnalysisBaseline pldeAnalysis : XmlElement) : ℕ :=
  match GetVectorAttribute pldeAnalysisBaseline "PLDE" 3 with
  | none => 1
  | some blPLDE =>
    match GetVectorAttribute pldeAnalysis "PLDE" 3 with
    | none => 1
    | some cPLDE => countRatioFailures blPLDE cPLDE

/-- The PLDE ValidationDataConfidenceLevel pair check (lines 402-422). -/
def pldeConfidenceCheck (pldeAnalysisBaseline pldeAnalysis : XmlElement) : ℕ :=
  match GetScalarAttribute pldeAnalysisBaseline "ValidationDataConfidenceLevel" with
  | none => 1
  | some bl =>
    match GetScalarAttribute pldeAnalysis "ValidationDataConfidenceLevel" with
    | none => 1
    | some c => if ratioFails bl c then 1 else 0

/-- CompareCalibrationResultsWithBaseline (lines 164-429): returns the number
of differences.  A document that fails to load (`none`) or a missing named
section triggers `return numberOfFailures;`, which in C++ exits the whole
function with the count accumulated so far; a missing attribute only adds one
failure and control continues.  The structure of nested matches below mirrors
the `return` statements of the source exactly. -/
def CompareCalibrationResultsWithBaseline (pd od : Mat4 → Mat4 → ℚ)
    (baselineRootElem currentRootElem : Option XmlElement)
    (translationErrorThreshold rotationErrorThreshold : ℤ) : ℕ :=
  match baselineRootElem with
  | none => 1
  | some baselineRoot =>
    match currentRootElem with
    | none => 1
    | some currentRoot =>
      match FindNestedElementWithName baselineRoot "CalibrationResults" with
      | none => 1
      | some calibrationResultsBaseline =>
        match FindNestedElementWithName currentRoot "CalibrationResults" with
        | none => 1
        | some calibrationResults =>
          match FindNestedElementWithName calibrationResultsBaseline "CalibrationTransform" with
          | none => 1
          | some calibrationTransformBaseline =>
            match FindNestedElementWithName calibrationResults "CalibrationTransform" with
            | none => 1
            | some calibrationTransform =>
              let n1 := transformImageToProbeCheck pd od calibrationTransformBaseline
                calibrationTransform translationErrorThreshold rotationErrorThreshold
              match FindNestedElementWithName baselineRoot "ErrorReports" with
              | none => n1 + 1
              | some errorReportsBaseline =>
                match FindNestedElementWithName currentRoot "ErrorReports" with
                | none => n1 + 1
                | some errorReports =>
                  match FindNestedElementWithName errorReportsBaseline "PointReconstructionErrorAnalysis" with
                  | none => n1 + 1
                  | some preAnalysisBaseline =>
                    match FindNestedElementWithName errorReports "PointReconstructionErrorAnalysis" with
                    | none => n1 + 1
                    | some preAnalysis =>
                      let n2 := n1 + preCheck preAnalysisBaseline preAnalysis
                        + preConfidenceCheck preAnalysisBaseline preAnalysis
                      match FindNestedElementWithName errorReportsBaseline "PointLineDistanceErrorAnalysis" with
                      | none => n2 + 1
                      | some pldeAnalysisBaseline =>
                        match FindNestedElementWithName errorReports "PointLineDistanceErrorAnalysis" with
                        | none => n2 + 1
                        | some pldeAnalysis =>
                          n2 + pldeCheck pldeAnalysisBaseline pldeAnalysis
                            + pldeConfidenceCheck pldeAnalysisBaseline pldeAnalysis

/-- Truncation toward zero of a rational, modelling the implicit C++
conversion from `double` to `int` that happens at the call on line 149, where
`main`'s double-typed `--translation-error-threshold` / `--rotation-error-threshold`
values are passed to the `int` parameters of
CompareCalibrationResultsWithBaseline (line 39). -/
def truncToInt (x : ℚ) : ℤ :=
  if 0 ≤ x then ⌊x⌋ else ⌈x⌉

/-- The invocation surface of the comparison (main, lines 51-52 and 149): the
CLI accepts arbitrary numeric thresholds as doubles and the call implicitly
converts them to int. -/
def runComparison (pd od : Mat4 → Mat4 → ℚ)
    (baselineRootElem currentRootElem : Option XmlElement)
    (inputTranslationErrorThreshold inputRotationErrorThreshold : ℚ) : ℕ :=
  CompareCalibrationResultsWithBaseline pd od baselineRootElem currentRootElem
    (truncToInt inputTranslationErrorThreshold) (truncToInt inputRotationErrorThreshold)

/-- A 4x4 matrix of reals, for the (real-valued) GetCalibrationError. -/
def Mat4R : Type := Fin 4 → Fin 4 → ℝ

/-- Modelled from the spec: vtkTransform::GetPosition (VTK, not part of these
sources) returns the translation components of the homogeneous matrix, i.e.
entries (0,3), (1,3), (2,3) (spec §3: a rigid transform is a 3x3 rotation
sub-matrix plus a 3-component translation, row-major flattening
`m[4*row+col]`). -/
def GetPosition (M : Mat4R) : Fin 3 → ℝ :=
  fun i => M (Fin.castSucc i) 3

/-- GetCalibrationError (lines 431-451): Euclidean distance
`sqrt(pow(bx-cx,2) + pow(by-cy,2) + pow(bz-cz,2))` between the positions of
the two transforms. -/
noncomputable def GetCalibrationError (baseTransMatrix currentTransMatrix : Mat4R) : ℝ :=
  let b0 := GetPosition baseTransMatrix 0
  let b1 := GetPosition baseTransMatrix 1
  let b2 := GetPosition baseTransMatrix 2
  let c0 := GetPosition currentTransMatrix 0
  let c1 := GetPosition currentTransMatrix 1
  let c2 := GetPosition currentTransMatrix 2
  Real.sqrt ((b0 - c0) ^ 2 + (b1 - c1) ^ 2 + (b2 - c2) ^ 2)

/-- View a triple of reals as a point of the Euclidean space ℝ³ (the type on
which Mathlib's Euclidean distance is defined). -/
def toE3 (v : Fin 3 → ℝ) : EuclideanSpace ℝ (Fin 3) := v

/-- Test-fixture constructor: a result-document root with the given contents
of its CalibrationResults and ErrorReports sections (document format of
spec §6). -/
def mkRoot (crChildren erChildren : List XmlElement) : XmlElement :=
  .mk "Root" []
    [.mk "CalibrationResults" [] crChildren,
     .mk "ErrorReports" [] erChildren]

/-- Test-fixture constructor: a CalibrationTransform element carrying the
16-element TransformImageToProbe attribute. -/
def calibrationTransformElem (tip : List ℚ) : XmlElement :=
  .mk "CalibrationTransform" [("TransformImageToProbe", .vector tip)] []

/-- Test-fixture constructor: a PointReconstructionErrorAnalysis element with
its PRE vector and confidence scalar. -/
def preAnalysisElem (pre : List ℚ) (cf : ℚ) : XmlElement :=
  .mk "PointReconstructionErrorAnalysis"
    [("PRE", .vector pre), ("ValidationDataConfidenceLevel", .scalar cf)] []

/-- Test-fixture constructor: a PointReconstructionErrorAnalysis element whose
PRE attribute has been removed. -/
def preAnalysisNoPREElem (cf : ℚ) : XmlElement :=
  .mk "PointReconstructionErrorAnalysis"
    [("ValidationDataConfidenceLevel", .scalar cf)] []

/-- Test-fixture constructor: a PointLineDistanceErrorAnalysis element with
its PLDE vector and confidence scalar. -/
def pldeAnalysisElem (plde : List ℚ) (cf2 : ℚ) : XmlElement :=
  .mk "PointLineDistanceErrorAnalysis"
    [("PLDE", .vector plde), ("ValidationDataConfidenceLevel", .scalar cf2)] []

/-- Test-fixture constructor: a fully schema-conforming document. -/
def mkDoc (tip pre : List ℚ) (cf : ℚ) (plde : List ℚ) (cf2 : ℚ) : XmlElement :=
  mkRoot [calibrationTransformElem tip] [preAnalysisElem pre cf, pldeAnalysisElem plde cf2]

/-- Test-fixture constructor: a document identical to `mkDoc` except that the
PRE attribute is absent. -/
def mkDocPREMissing (tip : List ℚ) (cf : ℚ) (plde : List ℚ) (cf2 : ℚ) : XmlElement :=
  mkRoot [calibrationTransformElem tip] [preAnalysisNoPREElem cf, pldeAnalysisElem plde cf2]

/-- Test-fixture constructor: a document whose ErrorReports has no
PointReconstructionErrorAnalysis section at all. -/
def mkDocNoPreSection (tip : List ℚ) (plde : List ℚ) (cf2 : ℚ) : XmlElement :=
  mkRoot [calibrationTransformElem tip] [pldeAnalysisElem plde cf2]

/-- An element carrying none of the checked attributes. -/
def bareElem : XmlElement :=
  .mk "Empty" [] []

/-- A document is valid when every section and attribute of the fixed schema
(spec §6) is present with the declared length. -/
def ValidDocument (d : XmlElement) : Prop :=
  ∃ cr ct er preA pldeA tip pre cf plde cf2,
    FindNestedElementWithName d "CalibrationResults" = some cr ∧
    FindNestedElementWithName cr "CalibrationTransform" = some ct ∧
    GetVectorAttribute ct "TransformImageToProbe" 16 = some tip ∧
    FindNestedElementWithName d "ErrorReports" = some er ∧
    FindNestedElementWithName er "PointReconstructionErrorAnalysis" = some preA ∧
    GetVectorAttribute preA "PRE" 9 = some pre ∧
    GetScalarAttribute preA "ValidationDataConfidenceLevel" = some cf ∧
    FindNestedElementWithName er "PointLineDistanceErrorAnalysis" = some pldeA ∧
    GetVectorAttribute pldeA "PLDE" 3 = some plde ∧
    GetScalarAttribute pldeA "ValidationDataConfidenceLevel" = some cf2

/-- Comparing a value with itself never fails the ratio rule: a nonzero value
gives ratio 1, and zero over zero is NaN, which fails neither comparison. -/
theorem ratioFails_self (v : ℚ) : ratioFails v v = false := by
  unfold ratioFails
  by_cases h : v = 0
  · simp [h]
  · rw [if_neg h, div_self h]
    norm_num [ERROR_THRESHOLD]

/-- The component loop finds no failure on two identical vectors. -/
theorem countRatioFailures_self (l : List ℚ) : countRatioFailures l l = 0 := by
  induction l with
  | nil => rfl
  | cons a as ih => simp [countRatioFailures, ratioFails_self, ih]

/-- The component loop splits over a shared prefix. -/
theorem countRatioFailures_append_same (l b d : List ℚ) :
    countRatioFailures (l ++ b) (l ++ d) = countRatioFailures l l + countRatioFailures b d := by
  induction l with
  | nil => simp [countRatioFailures]
  | cons a as ih => simp [countRatioFailures, ih]; omega

theorem find_calibrationResults (a b : List XmlElement) :
    FindNestedElementWithName (mkRoot a b) "CalibrationResults" =
      some (XmlElement.mk "CalibrationResults" [] a) := rfl

theorem find_errorReports (a b : List XmlElement) :
    FindNestedElementWithName (mkRoot a b) "ErrorReports" =
      some (XmlElement.mk "ErrorReports" [] b) := rfl

theorem find_calibrationTransform (tip : List ℚ) :
    FindNestedElementWithName (XmlElement.mk "CalibrationResults" [] [calibrationTransformElem tip])
      "CalibrationTransform" = some (calibrationTransformElem tip) := rfl

theorem find_preAnalysis (pre : List ℚ) (cf : ℚ) (plde : List ℚ) (cf2 : ℚ) :
    FindNestedElementWithName
      (XmlElement.mk "ErrorReports" [] [preAnalysisElem pre cf, pldeAnalysisElem plde cf2])
      "PointReconstructionErrorAnalysis" = some (preAnalysisElem pre cf) := rfl

theorem find_pldeAnalysis (pre : List ℚ) (cf : ℚ) (plde : List ℚ) (cf2 : ℚ) :
    FindNestedElementWithName
      (XmlElement.mk "ErrorReports" [] [preAnalysisElem pre cf, pldeAnalysisElem plde cf2])
      "PointLineDistanceErrorAnalysis" = some (pldeAnalysisElem plde cf2) := rfl

theorem find_preAnalysisNoPRE (cf : ℚ) (plde : List ℚ) (cf2 : ℚ) :
    FindNestedElementWithName
      (XmlElement.mk "ErrorReports" [] [preAnalysisNoPREElem cf, pldeAnalysisElem plde cf2])
      "PointReconstructionErrorAnalysis" = some (preAnalysisNoPREElem cf) := rfl

theorem find_pldeAnalysisNoPRE (cf : ℚ) (plde : List ℚ) (cf2 : ℚ) :
    FindNestedElementWithName
      (XmlElement.mk "ErrorReports" [] [preAnalysisNoPREElem cf, pldeAnalysisElem plde cf2])
      "PointLineDistanceErrorAnalysis" = some (pldeAnalysisElem plde cf2) := rfl

theorem gva_tip (tip : List ℚ) (h : tip.length = 16) :
    GetVectorAttribute (calibrationTransformElem tip) "TransformImageToProbe" 16 = some tip := by
  show (if tip.length = 16 then some tip else none) = some tip
  rw [if_pos h]

theorem gva_pre (pre : List ℚ) (cf : ℚ) (h : pre.length = 9) :
    GetVectorAttribute (preAnalysisElem pre cf) "PRE" 9 = some pre := by
  show (if pre.length = 9 then some pre else none) = some pre
  rw [if_pos h]

theorem gva_plde (plde : List ℚ) (cf2 : ℚ) (h : plde.length = 3) :
    GetVectorAttribute (pldeAnalysisElem plde cf2) "PLDE" 3 = some plde := by
  show (if plde.length = 3 then some plde else none) = some plde
  rw [if_pos h]

theorem gva_noPRE (cf : ℚ) : GetVectorAttribute (preAnalysisNoPREElem cf) "PRE" 9 = none := rfl

theorem tipCheck_eval (pd od : Mat4 → Mat4 → ℚ) (t r : ℤ) (tip tip' : List ℚ)
    (h : tip.length = 16) (h' : tip'.length = 16) :
    transformImageToProbeCheck pd od (calibrationTransformElem tip) (calibrationTransformElem tip') t r
      = (if pd (matrixOfList tip) (matrixOfList tip') > (t : ℚ) then 1 else 0)
      + (if od (matrixOfList tip) (matrixOfList tip') > (r : ℚ) then 1 else 0) := by
  simp only [transformImageToProbeCheck, gva_tip tip h, gva_tip tip' h']

theorem preCheck_eval (pre pre' : List ℚ) (cf cf' : ℚ) (h : pre.length = 9) (h' : pre'.length = 9) :
    preCheck (preAnalysisElem pre cf) (preAnalysisElem pre' cf') = countRatioFailures pre pre' := by
  simp only [preCheck, gva_pre pre cf h, gva_pre pre' cf' h']

theorem preCheck_missing_eval (pre : List ℚ) (cf cf' : ℚ) (h : pre.length = 9) :
    preCheck (preAnalysisElem pre cf) (preAnalysisNoPREElem cf') = 1 := by
  simp only [preCheck, gva_pre pre cf h, gva_noPRE]

theorem preConfidenceCheck_eval (pre pre' : List ℚ) (cf cf' : ℚ) :
    preConfidenceCheck (preAnalysisElem pre cf) (preAnalysisElem pre' cf')
      = if ratioFails cf cf' then 1 else 0 := rfl

theorem preConfidenceCheck_noPRE_eval (pre : List ℚ) (cf cf' : ℚ) :
    preConfidenceCheck (preAnalysisElem pre cf) (preAnalysisNoPREElem cf')
      = if ratioFails cf cf' then 1 else 0 := rfl

theorem pldeCheck_eval (plde plde' : List ℚ) (cf2 cf2' : ℚ)
    (h : plde.length = 3) (h' : plde'.length = 3) :
    pldeCheck (pldeAnalysisElem plde cf2) (pldeAnalysisElem plde' cf2')
      = countRatioFailures plde plde' := by
  simp only [pldeCheck, gva_plde plde cf2 h, gva_plde plde' cf2' h']

theorem pldeConfidenceCheck_eval (plde plde' : List ℚ) (cf2 cf2' : ℚ) :
    pldeConfidenceCheck (pldeAnalysisElem plde cf2) (pldeAnalysisElem plde' cf2')
      = if ratioFails cf2 cf2' then 1 else 0 := rfl

/-- Evaluation of the whole comparison on two schema-conforming documents. -/
theorem compare_mkDoc_eval (pd od : Mat4 → Mat4 → ℚ) (t r : ℤ)
    (tip tip' pre pre' : List ℚ) (cf cf' : ℚ) (plde plde' : List ℚ) (cf2 cf2' : ℚ)
    (h16 : tip.length = 16) (h16' : tip'.length = 16)
    (h9 : pre.length = 9) (h9' : pre'.length = 9)
    (h3 : plde.length = 3) (h3' : plde'.length = 3) :
    CompareCalibrationResultsWithBaseline pd od
      (some (mkDoc tip pre cf plde cf2)) (some (mkDoc tip' pre' cf' plde' cf2')) t r
    = (if pd (matrixOfList tip) (matrixOfList tip') > (t : ℚ) then 1 else 0)
      + (if od (matrixOfList tip) (matrixOfList tip') > (r : ℚ) then 1 else 0)
      + countRatioFailures pre pre'
      + (if ratioFails cf cf' then 1 else 0)
      + countRatioFailures plde plde'
      + (if ratioFails cf2 cf2' then 1 else 0) := by
  simp only [CompareCalibrationResultsWithBaseline, mkDoc,
    find_calibrationResults, find_errorReports, find_calibrationTransform,
    find_preAnalysis, find_pldeAnalysis,
    tipCheck_eval pd od t r tip tip' h16 h16',
    preCheck_eval pre pre' cf cf' h9 h9',
    preConfidenceCheck_eval, pldeCheck_eval plde plde' cf2 cf2' h3 h3',
    pldeConfidenceCheck_eval]

/-- Evaluation of the whole comparison when the current document lacks the PRE
attribute. -/
theorem compare_mkDocPREMissing_eval (pd od : Mat4 → Mat4 → ℚ) (t r : ℤ)
    (tip tip' pre : List ℚ) (cf cf' : ℚ) (plde plde' : List ℚ) (cf2 cf2' : ℚ)
    (h16 : tip.length = 16) (h16' : tip'.length = 16)
    (h9 : pre.length = 9) (h3 : plde.length = 3) (h3' : plde'.length = 3) :
    CompareCalibrationResultsWithBaseline pd od
      (some (mkDoc tip pre cf plde cf2)) (some (mkDocPREMissing tip' cf' plde' cf2')) t r
    = (if pd (matrixOfList tip) (matrixOfList tip') > (t : ℚ) then 1 else 0)
      + (if od (matrixOfList tip) (matrixOfList tip') > (r : ℚ) then 1 else 0)
      + 1
      + (if ratioFails cf cf' then 1 else 0)
      + countRatioFailures plde plde'
      + (if ratioFails cf2 cf2' then 1 else 0) := by
  simp only [CompareCalibrationResultsWithBaseline, mkDoc, mkDocPREMissing,
    find_calibrationResults, find_errorReports, find_calibrationTransform,
    find_preAnalysis, find_preAnalysisNoPRE, find_pldeAnalysis, find_pldeAnalysisNoPRE,
    tipCheck_eval pd od t r tip tip' h16 h16',
    preCheck_missing_eval pre cf cf' h9,
    preConfidenceCheck_noPRE_eval, pldeCheck_eval plde plde' cf2 cf2' h3 h3',
    pldeConfidenceCheck_eval]

/-- C3: for a scalar or vector-component metric pair with baseline value b and
current value c (c nonzero), the relative-ratio rule records a failure iff
b / c > 1 + 0.05 or b / c < 1 - 0.05; the 5% threshold is the fixed constant
ERROR_THRESHOLD (the invocation surface, runComparison, passes no ratio
threshold). -/
theorem ratio_rule_iff :
    ERROR_THRESHOLD = 5 / 100 ∧
    ∀ b c : ℚ, c ≠ 0 →
      (ratioFails b c = true ↔ b / c > 1 + 5 / 100 ∨ b / c < 1 - 5 / 100) := by
  refine ⟨rfl, fun b c hc => ?_⟩
  simp [ratioFails, hc, ERROR_THRESHOLD]

/-- Witness for C3 at b = 11, c = 10. -/
theorem ratio_rule_iff_witness : ratioFails 11 10 = true :=
  (ratio_rule_iff.2 11 10 (by norm_num)).mpr (Or.inl (by norm_num))

/-- C4: with both transform attributes present, a translation error exactly
equal to the (integer) threshold records no failure — failing requires strict
`>` — while an error strictly above the threshold records one failure; the
same strict rule holds for the rotation error. -/
theorem transform_threshold_strict (pd od : Mat4 → Mat4 → ℚ) (t r : ℤ)
    (ctB ct : XmlElement) (bl c : List ℚ)
    (hb : GetVectorAttribute ctB "TransformImageToProbe" 16 = some bl)
    (hc : GetVectorAttribute ct "TransformImageToProbe" 16 = some c) :
    (pd (matrixOfList bl) (matrixOfList c) = (t : ℚ) →
      od (matrixOfList bl) (matrixOfList c) = (r : ℚ) →
      transformImageToProbeCheck pd od ctB ct t r = 0) ∧
    (pd (matrixOfList bl) (matrixOfList c) > (t : ℚ) →
      od (matrixOfList bl) (matrixOfList c) ≤ (r : ℚ) →
      transformImageToProbeCheck pd od ctB ct t r = 1) ∧
    (pd (matrixOfList bl) (matrixOfList c) ≤ (t : ℚ) →
      od (matrixOfList bl) (matrixOfList c) > (r : ℚ) →
      transformImageToProbeCheck pd od ctB ct t r = 1) := by
  simp only [transformImageToProbeCheck, hb, hc]
  refine ⟨fun h1 h2 => ?_, fun h1 h2 => ?_, fun h1 h2 => ?_⟩
  · rw [h1, h2]; simp
  · rw [if_pos h1, if_neg (not_lt.2 h2)]
  · rw [if_neg (not_lt.2 h1), if_pos h2]

/-- Witness for C4: error equal to the threshold passes, error strictly above
it fails once. -/
theorem transform_threshold_strict_witness :
    transformImageToProbeCheck (fun _ _ => 0) (fun _ _ => 0)
      (calibrationTransformElem (List.replicate 16 0))
      (calibrationTransformElem (List.replicate 16 0)) 0 0 = 0 ∧
    transformImageToProbeCheck (fun _ _ => 1) (fun _ _ => 0)
      (calibrationTransformElem (List.replicate 16 0))
      (calibrationTransformElem (List.replicate 16 0)) 0 0 = 1 := by
  constructor
  · exact (transform_threshold_strict (fun _ _ => 0) (fun _ _ => 0) 0 0
      (calibrationTransformElem (List.replicate 16 0)) (calibrationTransformElem (List.replicate 16 0))
      (List.replicate 16 0) (List.replicate 16 0) rfl rfl).1 (by norm_num) (by norm_num)
  · exact (transform_threshold_strict (fun _ _ => 1) (fun _ _ => 0) 0 0
      (calibrationTransformElem (List.replicate 16 0)) (calibrationTransformElem (List.replicate 16 0))
      (List.replicate 16 0) (List.replicate 16 0) rfl rfl).2.1 (by norm_num) (by norm_num)

/-- C8: the comparison routine takes its thresholds as integers (ℤ), so the
double-valued CLI thresholds are truncated toward zero before any threshold
comparison; truncation toward zero is characterized by the three properties
below, and 1.9 becomes 1 (and -1.9 becomes -1). -/
theorem thresholds_truncated_toward_zero (pd od : Mat4 → Mat4 → ℚ)
    (baselineRootElem currentRootElem : Option XmlElement) (x y : ℚ) :
    runComparison pd od baselineRootElem currentRootElem x y
      = CompareCalibrationResultsWithBaseline pd od baselineRootElem currentRootElem
          (truncToInt x) (truncToInt y) ∧
    |(truncToInt x : ℚ)| ≤ |x| ∧
    |x| < |(truncToInt x : ℚ)| + 1 ∧
    0 ≤ (truncToInt x : ℚ) * x ∧
    truncToInt (19 / 10) = 1 ∧
    truncToInt (-(19 / 10)) = -1 := by
  have habs : |(truncToInt x : ℚ)| ≤ |x| ∧ |x| < |(truncToInt x : ℚ)| + 1 ∧
      0 ≤ (truncToInt x : ℚ) * x := by
    rcases le_or_lt 0 x with h | h
    · have hf0 : (0 : ℤ) ≤ ⌊x⌋ := Int.floor_nonneg.2 h
      have hf0' : (0 : ℚ) ≤ (⌊x⌋ : ℚ) := by exact_mod_cast hf0
      simp only [truncToInt, if_pos h]
      rw [abs_of_nonneg h, abs_of_nonneg hf0']
      exact ⟨Int.floor_le x, Int.lt_floor_add_one x, mul_nonneg hf0' h⟩
    · have hc0 : ⌈x⌉ ≤ 0 := Int.ceil_le.2 (by exact_mod_cast h.le)
      have hc0' : ((⌈x⌉ : ℤ) : ℚ) ≤ 0 := by exact_mod_cast hc0
      simp only [truncToInt, if_neg (not_le.2 h)]
      rw [abs_of_nonpos h.le, abs_of_nonpos hc0']
      refine ⟨neg_le_neg (Int.le_ceil x), ?_, ?_⟩
      · have hcl := Int.ceil_lt_add_one x
        have hcl' : ((⌈x⌉ : ℤ) : ℚ) < x + 1 := by exact_mod_cast hcl
        linarith
      · have hm : 0 ≤ (-((⌈x⌉ : ℤ) : ℚ)) * (-x) :=
          mul_nonneg (neg_nonneg.2 hc0') (neg_nonneg.2 h.le)
        simpa using hm
  refine ⟨rfl, habs.1, habs.2.1, habs.2.2, by norm_num [truncToInt], ?_⟩
  simp only [truncToInt]
  rw [if_neg (by norm_num), Int.ceil_neg]
  norm_num

/-- C9: for every attribute checked in pairs, a baseline-side missing
attribute records exactly one failure, whatever the current-side element
holds (in particular the current side is never examined, and both sides
missing still count one, not two). -/
theorem baseline_attribute_missing_one_failure (pd od : Mat4 → Mat4 → ℚ) (t r : ℤ)
    (ctB ct preB preC pldeB pldeC : XmlElement)
    (h1 : GetVectorAttribute ctB "TransformImageToProbe" 16 = none)
    (h2 : GetVectorAttribute preB "PRE" 9 = none)
    (h3 : GetScalarAttribute preB "ValidationDataConfidenceLevel" = none)
    (h4 : GetVectorAttribute pldeB "PLDE" 3 = none)
    (h5 : GetScalarAttribute pldeB "ValidationDataConfidenceLevel" = none) :
    transformImageToProbeCheck pd od ctB ct t r = 1 ∧
    preCheck preB preC = 1 ∧
    preConfidenceCheck preB preC = 1 ∧
    pldeCheck pldeB pldeC = 1 ∧
    pldeConfidenceCheck pldeB pldeC = 1 := by
  refine ⟨?_, ?_, ?_, ?_, ?_⟩ <;>
    simp only [transformImageToProbeCheck, preCheck, preConfidenceCheck,
      pldeCheck, pldeConfidenceCheck, h1, h2, h3, h4, h5]

/-- Witness for C9: all five checks on attribute-free elements on both sides
count exactly one failure each. -/
theorem baseline_attribute_missing_one_failure_witness :
    transformImageToProbeCheck (fun _ _ => 0) (fun _ _ => 0) bareElem bareElem 0 0 = 1 ∧
    preCheck bareElem bareElem = 1 ∧
    preConfidenceCheck bareElem bareElem = 1 ∧
    pldeCheck bareElem bareElem = 1 ∧
    pldeConfidenceCheck bareElem bareElem = 1 :=
  baseline_attribute_missing_one_failure (fun _ _ => 0) (fun _ _ => 0) 0 0
    bareElem bareElem bareElem bareElem bareElem bareElem rfl rfl rfl rfl rfl

/-- C10: the ratio computation has no guard against a zero current value; the
division-by-zero branch is reachable, and in the modelled IEEE semantics a
zero current with nonzero baseline yields an infinite ratio that is counted
as a failure, while zero over zero yields NaN and records no failure (shown
both on the ratio rule itself and end-to-end on concrete document pairs
differing only in a zero PRE component). -/
theorem ratio_division_by_zero_behavior (b : ℚ) (hb : b ≠ 0) :
    ratioFails b 0 = true ∧ ratioFails 0 0 = false ∧
    CompareCalibrationResultsWithBaseline (fun _ _ => 0) (fun _ _ => 0)
      (some (mkDoc (List.replicate 16 0) (1 :: List.replicate 8 1) 1 (List.replicate 3 1) 1))
      (some (mkDoc (List.replicate 16 0) (0 :: List.replicate 8 1) 1 (List.replicate 3 1) 1))
      0 0 = 1 ∧
    CompareCalibrationResultsWithBaseline (fun _ _ => 0) (fun _ _ => 0)
      (some (mkDoc (List.replicate 16 0) (0 :: List.replicate 8 1) 1 (List.replicate 3 1) 1))
      (some (mkDoc (List.replicate 16 0) (0 :: List.replicate 8 1) 1 (List.replicate 3 1) 1))
      0 0 = 0 := by
  have e1 : ratioFails 1 0 = true := by simp [ratioFails]
  refine ⟨by simp [ratioFails, hb], ratioFails_self 0, ?_, ?_⟩
  · rw [compare_mkDoc_eval (fun _ _ => 0) (fun _ _ => 0) 0 0
      (List.replicate 16 0) (List.replicate 16 0)
      (1 :: List.replicate 8 1) (0 :: List.replicate 8 1) 1 1
      (List.replicate 3 1) (List.replicate 3 1) 1 1 rfl rfl rfl rfl rfl rfl]
    simp [countRatioFailures, e1, countRatioFailures_self, ratioFails_self]
  · rw [compare_mkDoc_eval (fun _ _ => 0) (fun _ _ => 0) 0 0
      (List.replicate 16 0) (List.replicate 16 0)
      (0 :: List.replicate 8 1) (0 :: List.replicate 8 1) 1 1
      (List.replicate 3 1) (List.replicate 3 1) 1 1 rfl rfl rfl rfl rfl rfl]
    simp [countRatioFailures, countRatioFailures_self, ratioFails_self]

/-- Witness for C10 at b = 2. -/
theorem ratio_division_by_zero_behavior_witness : ratioFails 2 0 = true :=
  (ratio_division_by_zero_behavior 2 (by norm_num)).1

theorem find_preAnalysis_missing (plde : List ℚ) (cf2 : ℚ) :
    FindNestedElementWithName (XmlElement.mk "ErrorReports" [] [pldeAnalysisElem plde cf2])
      "PointReconstructionErrorAnalysis" = none := rfl

/-- C1 counterexample: with both roots and both ErrorReports present but the
PointReconstructionErrorAnalysis section missing in the current document, the
comparison returns exactly 1, although the sibling PLDE branch — had it been
attempted — would have contributed 3 further failures: the sibling branch is
not attempted, contradicting the claim. -/
theorem pre_section_missing_counterexample :
    CompareCalibrationResultsWithBaseline (fun _ _ => 0) (fun _ _ => 0)
      (some (mkDoc (List.replicate 16 0) (List.replicate 9 1) 1 [1, 1, 1] 1))
      (some (mkDocNoPreSection (List.replicate 16 0) [9, 9, 9] 1)) 0 0 = 1 ∧
    pldeCheck (pldeAnalysisElem [1, 1, 1] 1) (pldeAnalysisElem [9, 9, 9] 1) = 3 := by
  have e19 : ratioFails 1 9 = true := by norm_num [ratioFails, ERROR_THRESHOLD]
  constructor
  · simp only [CompareCalibrationResultsWithBaseline, mkDoc, mkDocNoPreSection,
      find_calibrationResults, find_errorReports, find_calibrationTransform,
      find_preAnalysis, find_preAnalysis_missing,
      tipCheck_eval (fun _ _ => 0) (fun _ _ => 0) 0 0
        (List.replicate 16 0) (List.replicate 16 0) rfl rfl]
    simp
  · rw [pldeCheck_eval [1, 1, 1] [9, 9, 9] 1 1 rfl rfl]
    simp [countRatioFailures, e19]

/-- C1 (amended): when both roots, both CalibrationResults/CalibrationTransform
sections and both ErrorReports sections are present but the
PointReconstructionErrorAnalysis section is missing in either document, the
comparison records one failure for the missing section and returns
immediately from the whole comparison: the final count is the transform
branch's count plus one, and the sibling PointLineDistanceErrorAnalysis
branch is never attempted (the early exit for a missing section is global,
not per-branch). -/
theorem pre_section_missing_returns_globally (pd od : Mat4 → Mat4 → ℚ) (t r : ℤ)
    (bRoot cRoot crB cr ctB ct erB er : XmlElement)
    (h1 : FindNestedElementWithName bRoot "CalibrationResults" = some crB)
    (h2 : FindNestedElementWithName cRoot "CalibrationResults" = some cr)
    (h3 : FindNestedElementWithName crB "CalibrationTransform" = some ctB)
    (h4 : FindNestedElementWithName cr "CalibrationTransform" = some ct)
    (h5 : FindNestedElementWithName bRoot "ErrorReports" = some erB)
    (h6 : FindNestedElementWithName cRoot "ErrorReports" = some er)
    (h7 : FindNestedElementWithName erB "PointReconstructionErrorAnalysis" = none ∨
          FindNestedElementWithName er "PointReconstructionErrorAnalysis" = none) :
    CompareCalibrationResultsWithBaseline pd od (some bRoot) (some cRoot) t r
      = transformImageToProbeCheck pd od ctB ct t r + 1 := by
  simp only [CompareCalibrationResultsWithBaseline, h1, h2, h3, h4, h5, h6]
  rcases h7 with h7 | h7
  · simp only [h7]
  · cases hB : FindNestedElementWithName erB "PointReconstructionErrorAnalysis" with
    | none => simp only [hB]
    | some p => simp only [hB, h7]

/-- Witness for C1 (amended) on a concrete document pair whose current
document lacks the PointReconstructionErrorAnalysis section. -/
theorem pre_section_missing_returns_globally_witness :
    CompareCalibrationResultsWithBaseline (fun _ _ => 0) (fun _ _ => 0)
      (some (mkDoc (List.replicate 16 0) (List.replicate 9 1) 1 (List.replicate 3 1) 1))
      (some (mkDocNoPreSection (List.replicate 16 0) (List.replicate 3 1) 1)) 0 0
      = transformImageToProbeCheck (fun _ _ => 0) (fun _ _ => 0)
          (calibrationTransformElem (List.replicate 16 0))
          (calibrationTransformElem (List.replicate 16 0)) 0 0 + 1 :=
  pre_section_missing_returns_globally (fun _ _ => 0) (fun _ _ => 0) 0 0
    (mkDoc (List.replicate 16 0) (List.replicate 9 1) 1 (List.replicate 3 1) 1)
    (mkDocNoPreSection (List.replicate 16 0) (List.replicate 3 1) 1)
    (XmlElement.mk "CalibrationResults" [] [calibrationTransformElem (List.replicate 16 0)])
    (XmlElement.mk "CalibrationResults" [] [calibrationTransformElem (List.replicate 16 0)])
    (calibrationTransformElem (List.replicate 16 0))
    (calibrationTransformElem (List.replicate 16 0))
    (XmlElement.mk "ErrorReports" []
      [preAnalysisElem (List.replicate 9 1) 1, pldeAnalysisElem (List.replicate 3 1) 1])
    (XmlElement.mk "ErrorReports" [] [pldeAnalysisElem (List.replicate 3 1) 1])
    rfl rfl rfl rfl rfl rfl (Or.inr rfl)

/-- C2: comparing a valid document against itself yields zero failures, for
any non-negative integer thresholds; the external error functions satisfy the
spec contract that the error of a transform against itself is zero. -/
theorem compare_self_eq_zero (pd od : Mat4 → Mat4 → ℚ) (d : XmlElement) (t r : ℤ)
    (hd : ValidDocument d)
    (hpd : ∀ A : Mat4, pd A A = 0) (hod : ∀ A : Mat4, od A A = 0)
    (ht : 0 ≤ t) (hr : 0 ≤ r) :
    CompareCalibrationResultsWithBaseline pd od (some d) (some d) t r = 0 := by
  obtain ⟨cr, ct, er, preA, pldeA, tip, pre, cf, plde, cf2,
    h1, h2, h3, h4, h5, h6, h7, h8, h9, h10⟩ := hd
  have ht' : (0 : ℚ) ≤ (t : ℚ) := by exact_mod_cast ht
  have hr' : (0 : ℚ) ≤ (r : ℚ) := by exact_mod_cast hr
  simp only [CompareCalibrationResultsWithBaseline, h1, h2, h4, h5, h8,
    transformImageToProbeCheck, h3, preCheck, h6, preConfidenceCheck, h7,
    pldeCheck, h9, pldeConfidenceCheck, h10, hpd, hod,
    countRatioFailures_self, ratioFails_self]
  simp [not_lt.2 ht', not_lt.2 hr']

/-- Witness for C2 on a concrete valid document with thresholds 3 and 5. -/
theorem compare_self_eq_zero_witness :
    CompareCalibrationResultsWithBaseline (fun _ _ => 0) (fun _ _ => 0)
      (some (mkDoc (List.replicate 16 0) (List.replicate 9 1) (95 / 100)
        (List.replicate 3 1) (95 / 100)))
      (some (mkDoc (List.replicate 16 0) (List.replicate 9 1) (95 / 100)
        (List.replicate 3 1) (95 / 100))) 3 5 = 0 :=
  compare_self_eq_zero (fun _ _ => 0) (fun _ _ => 0)
    (mkDoc (List.replicate 16 0) (List.replicate 9 1) (95 / 100)
      (List.replicate 3 1) (95 / 100)) 3 5
    ⟨_, _, _, _, _, _, _, _, _, _, rfl, rfl, rfl, rfl, rfl, rfl, rfl, rfl, rfl, rfl⟩
    (fun _ => rfl) (fun _ => rfl) (by norm_num) (by norm_num)

/-- C5: on two documents identical except that exactly one of the nine PRE
components of the current document fails the ratio rule against the baseline,
the comparison records exactly one failure — components are checked
independently and a failing component does not stop the rest. -/
theorem single_pre_component_single_failure (pd od : Mat4 → Mat4 → ℚ) (t r : ℤ)
    (tip l1 l2 plde : List ℚ) (x y cf cf2 : ℚ)
    (htip : tip.length = 16) (hlen : l1.length + l2.length = 8) (hplde : plde.length = 3)
    (hpd : pd (matrixOfList tip) (matrixOfList tip) ≤ (t : ℚ))
    (hod : od (matrixOfList tip) (matrixOfList tip) ≤ (r : ℚ))
    (hfail : ratioFails x y = true) :
    CompareCalibrationResultsWithBaseline pd od
      (some (mkDoc tip (l1 ++ x :: l2) cf plde cf2))
      (some (mkDoc tip (l1 ++ y :: l2) cf plde cf2)) t r = 1 := by
  have h9 : (l1 ++ x :: l2).length = 9 := by
    simp only [List.length_append, List.length_cons]; omega
  have h9' : (l1 ++ y :: l2).length = 9 := by
    simp only [List.length_append, List.length_cons]; omega
  rw [compare_mkDoc_eval pd od t r tip tip (l1 ++ x :: l2) (l1 ++ y :: l2) cf cf
    plde plde cf2 cf2 htip htip h9 h9' hplde hplde]
  rw [countRatioFailures_append_same l1 (x :: l2) (y :: l2)]
  simp [countRatioFailures, countRatioFailures_self, ratioFails_self, hfail,
    not_lt.2 hpd, not_lt.2 hod]

/-- Witness for C5: corrupting the first PRE component from 1 to 2 yields
exactly one failure. -/
theorem single_pre_component_single_failure_witness :
    CompareCalibrationResultsWithBaseline (fun _ _ => 0) (fun _ _ => 0)
      (some (mkDoc (List.replicate 16 0) ([] ++ 1 :: List.replicate 8 1) 1
        (List.replicate 3 1) 1))
      (some (mkDoc (List.replicate 16 0) ([] ++ 2 :: List.replicate 8 1) 1
        (List.replicate 3 1) 1)) 0 0 = 1 :=
  single_pre_component_single_failure (fun _ _ => 0) (fun _ _ => 0) 0 0
    (List.replicate 16 0) [] (List.replicate 8 1) (List.replicate 3 1) 1 2 1 1
    rfl rfl rfl (by norm_num) (by norm_num)
    (by norm_num [ratioFails, ERROR_THRESHOLD])

/-- C6: removing only the PRE attribute from the current document yields
exactly one attribute-missing failure; only the PRE comparison is skipped —
the PRE confidence check and the whole PLDE analysis still run, as the second
conjunct shows by varying the current PLDE vector. -/
theorem pre_attribute_missing_one_failure (pd od : Mat4 → Mat4 → ℚ) (t r : ℤ)
    (tip pre plde plde' : List ℚ) (cf cf2 : ℚ)
    (htip : tip.length = 16) (hpre : pre.length = 9)
    (hplde : plde.length = 3) (hplde' : plde'.length = 3)
    (hpd : pd (matrixOfList tip) (matrixOfList tip) ≤ (t : ℚ))
    (hod : od (matrixOfList tip) (matrixOfList tip) ≤ (r : ℚ)) :
    CompareCalibrationResultsWithBaseline pd od
      (some (mkDoc tip pre cf plde cf2))
      (some (mkDocPREMissing tip cf plde cf2)) t r = 1 ∧
    CompareCalibrationResultsWithBaseline pd od
      (some (mkDoc tip pre cf plde cf2))
      (some (mkDocPREMissing tip cf plde' cf2)) t r
      = 1 + countRatioFailures plde plde' := by
  constructor
  · rw [compare_mkDocPREMissing_eval pd od t r tip tip pre cf cf plde plde cf2 cf2
      htip htip hpre hplde hplde]
    simp [countRatioFailures_self, ratioFails_self, not_lt.2 hpd, not_lt.2 hod]
  · rw [compare_mkDocPREMissing_eval pd od t r tip tip pre cf cf plde plde' cf2 cf2
      htip htip hpre hplde hplde']
    simp [ratioFails_self, not_lt.2 hpd, not_lt.2 hod]

/-- Witness for C6 on concrete documents. -/
theorem pre_attribute_missing_one_failure_witness :
    CompareCalibrationResultsWithBaseline (fun _ _ => 0) (fun _ _ => 0)
      (some (mkDoc (List.replicate 16 0) (List.replicate 9 1) 1 (List.replicate 3 1) 1))
      (some (mkDocPREMissing (List.replicate 16 0) 1 (List.replicate 3 1) 1)) 0 0 = 1 ∧
    CompareCalibrationResultsWithBaseline (fun _ _ => 0) (fun _ _ => 0)
      (some (mkDoc (List.replicate 16 0) (List.replicate 9 1) 1 (List.replicate 3 1) 1))
      (some (mkDocPREMissing (List.replicate 16 0) 1 (List.replicate 3 9) 1)) 0 0
      = 1 + countRatioFailures (List.replicate 3 1) (List.replicate 3 9) :=
  pre_attribute_missing_one_failure (fun _ _ => 0) (fun _ _ => 0) 0 0
    (List.replicate 16 0) (List.replicate 9 1) (List.replicate 3 1) (List.replicate 3 9)
    1 1 rfl rfl rfl rfl (by norm_num) (by norm_num)

/-- C7: GetCalibrationError is the Euclidean distance between the translation
components of its two argument matrices — stated against Mathlib's metric on
the Euclidean space ℝ³ — and, being a plain function, depends on nothing but
the two matrices. -/
theorem getCalibrationError_eq_dist (A B : Mat4R) :
    GetCalibrationError A B = dist (toE3 (GetPosition A)) (toE3 (GetPosition B)) := by
  rw [EuclideanSpace.dist_eq]
  simp only [toE3, Real.dist_eq, sq_abs, Fin.sum_univ_three]
  rfl
